import Mathlib

/-!
Verification development for the AURA diagnostics orchestration core
(`backend/src/workflow.py`).  The definitions below are a shallow embedding of
the workflow module: the pure helpers (`match_high_value`,
`_get_smart_search_query`, the triage extraction, the drug-warning parsing) are
translated directly, and the orchestrator (`OrchestratorWorkflow.run` together
with `_safe_step` and the step implementations) is modelled as a function of an
oracle recording the outcome of every external call (LLM requests, the EHR
lookup, the literature/case search services, the drug checker).  Exceptions of
the Python code are modelled with `Except String`; the per-step containment of
`_safe_step` is the function `safeStep` below.
-/

set_option maxRecDepth 4000

namespace Aura

/-! ### Python string primitives

The Lean core `String` functions (`splitOn`, `trim`, `toLower`, `startsWith`)
are implemented over byte positions and do not reduce inside the kernel, so
the Python string operations used by the workflow are modelled here over
`List Char`.  All strings handled by the workflow are treated at Python `str`
semantics; the case table and the whitespace set are the ASCII ones (all data
in the source's tables is ASCII). -/

/-- `pre` is a prefix of `s` (Python `s.startswith(pre)` on the lists). -/
def listStartsWith : List Char → List Char → Bool
  | [], _ => true
  | _ :: _, [] => false
  | p :: ps, c :: cs => p == c && listStartsWith ps cs

/-- Left-to-right, non-overlapping split on a non-empty separator, fuelled by
the input length (one character is consumed per step, so the fuel suffices). -/
def pySplitAux (sep : List Char) : Nat → List Char → List Char → List (List Char)
  | _, acc, [] => [acc.reverse]
  | 0, acc, rest => [acc.reverse ++ rest]
  | fuel + 1, acc, c :: cs =>
    if listStartsWith sep (c :: cs) then
      acc.reverse :: pySplitAux sep fuel [] ((c :: cs).drop sep.length)
    else
      pySplitAux sep fuel (c :: acc) cs

/-- Python `s.split(sep)` for a non-empty separator. -/
def pySplit (s sep : String) : List String :=
  (pySplitAux sep.toList s.toList.length [] s.toList).map String.mk

/-- The characters Python `str.strip()` removes. -/
def pyIsSpace (c : Char) : Bool :=
  c == ' ' || c == '\t' || c == '\n' || c == '\r' || c == '\x0b' || c == '\x0c'

/-- Python `s.strip()`. -/
def pyStrip (s : String) : String :=
  String.mk ((s.toList.dropWhile pyIsSpace).reverse.dropWhile pyIsSpace).reverse

/-- Python `s.lower()` (ASCII case table). -/
def pyLower (s : String) : String :=
  String.mk (s.toList.map Char.toLower)

/-- Python `s.startswith(pre)`. -/
def pyStartsWith (s pre : String) : Bool :=
  listStartsWith pre.toList s.toList

/-- Python's `pat in s` substring test (for a non-empty pattern): the pattern
occurs in `s` iff splitting on it yields more than one piece. -/
def strContainsSub (s pat : String) : Bool :=
  (pySplit s pat).length > 1

/-! ### difflib.SequenceMatcher (as used by `match_high_value`)

`match_high_value` calls `difflib.SequenceMatcher(None, a, b).ratio()`, which is
`2*M/T` where `T = len(a) + len(b)` and `M` is the total size of the matching
blocks.  The blocks are found by repeatedly taking the longest matching block
(earliest in `a`, then earliest in `b`, on ties) and recursing on the pieces to
its left and right.  The strings involved are far below difflib's autojunk
cutoff (200), so the junk machinery of the Python implementation is inert and
is not modelled. -/

/-- A matching block: start in `a`, start in `b`, and its size. -/
structure LMatch where
  besti : Nat
  bestj : Nat
  size : Nat
deriving DecidableEq

/-- Length of the common prefix run of two suffixes. -/
def commonRun : List Char → List Char → Nat
  | a :: as, b :: bs => if a == b then commonRun as bs + 1 else 0
  | _, _ => 0

/-- Largest `commonRun` of `sa` against every suffix of the second list. -/
def maxRunB (sa : List Char) : List Char → Nat
  | [] => 0
  | b :: bs => max (commonRun sa (b :: bs)) (maxRunB sa bs)

/-- Largest common-run length over all pairs of suffixes: the size difflib's
`find_longest_match` reports. -/
def maxRun : List Char → List Char → Nat
  | [], _ => 0
  | a :: as, b => max (maxRunB (a :: as) b) (maxRun as b)

/-- First start `j` in `b` (ascending) whose run against `sa` has length `k`. -/
def firstJ (sa : List Char) (k : Nat) : List Char → Nat → Option Nat
  | [], _ => none
  | b :: bs, j => if commonRun sa (b :: bs) = k then some j else firstJ sa k bs (j + 1)

/-- First pair `(i, j)` in lexicographic order whose common run has length `k`. -/
def firstIJ (k : Nat) (b : List Char) : List Char → Nat → Nat × Nat
  | [], _ => (0, 0)
  | a :: as, i =>
    match firstJ (a :: as) k b 0 with
    | some j => (i, j)
    | none => firstIJ k b as (i + 1)

/-- `difflib`'s `find_longest_match` over the whole of `a` and `b` (no junk):
a maximal matching block, and among maximal blocks the one starting earliest
in `a` and then earliest in `b` — difflib's documented tie-break, which its
`j2len` dynamic program (scanning end positions in `a` ascending, then
positions in `b` ascending, updating only on strictly larger sizes) realises.
A maximal block's start pair is exactly a lexicographically first pair whose
`commonRun` equals the maximal size, which is how it is computed here. -/
def findLongestMatch (a b : List Char) : LMatch :=
  let k := maxRun a b
  if k = 0 then ⟨0, 0, 0⟩
  else
    let ij := firstIJ k b a 0
    ⟨ij.1, ij.2, k⟩

/-- Total size of the matching blocks (`M` in `ratio = 2*M/T`): take the
longest match, recurse left and right of it.  The recursion depth is bounded by
`a.length + b.length`, so the fuel of `matchBlocksTotal` never runs out. -/
def matchBlocksTotalAux : Nat → List Char → List Char → Nat
  | 0, _, _ => 0
  | fuel + 1, a, b =>
    let m := findLongestMatch a b
    if m.size = 0 then 0
    else
      m.size + matchBlocksTotalAux fuel (a.take m.besti) (b.take m.bestj) +
        matchBlocksTotalAux fuel (a.drop (m.besti + m.size)) (b.drop (m.bestj + m.size))

def matchBlocksTotal (a b : List Char) : Nat :=
  matchBlocksTotalAux (a.length + b.length + 1) a b

/-- `SequenceMatcher(None, a, b).ratio() > 0.8`.  With `T = |a| + |b|` and `M`
the total matched size, `2*M/T > 4/5` iff `5*M > 2*T` (difflib returns `1.0`
when `T = 0`); for the string lengths occurring here the floating-point
comparison against the literal `0.8` agrees with the exact rational one. -/
def similarityAbove (a b : List Char) : Bool :=
  let t := a.length + b.length
  if t = 0 then true else 2 * t < 5 * matchBlocksTotal a b

/-! ### The clinical lexicon and `match_high_value` -/

/-- The fallback `HIGH_VALUE_QUALIFIERS` table of `workflow.py` (the repository
ships no `config/high_value_qualifiers.json`, so the `FileNotFoundError` branch
installs this table; values are lowercased at load time). -/
def HIGH_VALUE_QUALIFIERS : List (String × List String) :=
  [("rash", ["slapped cheek", "bull's-eye", "target lesion"]),
   ("respiratory", ["whooping cough", "paroxysmal cough"]),
   ("neurologic", ["nuchal rigidity", "photophobia"])]

/-- All reference phrases in category/phrase iteration order (the order of the
two nested `for` loops of `match_high_value`). -/
def allHighValuePhrases : List String :=
  (HIGH_VALUE_QUALIFIERS.map Prod.snd).foldr (· ++ ·) []

/-- `match_high_value(qualifier)`: lowercase the input, scan every reference
phrase in iteration order, return the first whose similarity ratio exceeds
0.8, else `None`. -/
def match_high_value (qualifier : String) : Option String :=
  let ql := (pyLower qualifier).toList
  allHighValuePhrases.find? fun q => similarityAbove ql q.toList

/-! ### Data model (`DiagnosticState` and the dict shapes it carries) -/

/-- One entry of `structured_symptoms["symptoms"]`: a dict read through
`.get('name', ...)` and `.get('qualifiers', [])`.  `name = none` models a
missing key. -/
structure Symptom where
  name : Option String
  qualifiers : List String
deriving DecidableEq

/-- The dict produced by the symptom-analysis step; `symptoms = none` models a
dict without the `'symptoms'` key (in particular the `{}` failure default). -/
structure StructuredSymptoms where
  symptoms : Option (List Symptom)
deriving DecidableEq

/-- The patient dict, restricted to the keys the workflow reads
(`.get('age', ...)`, `.get('medical_history', '')`); `none` models a missing
key, as in the `{}` failure default. -/
structure PatientDetails where
  age : Option Int
  medical_history : Option String
deriving DecidableEq

/-- An evidence item `{source_id, text, confidence}`. -/
structure Evidence where
  source_id : String
  text : String
  confidence : ℚ
deriving DecidableEq

/-- A parsed PubMed article as consumed in `_search_pubmed`
(`a.get('pmid'/'title'/'abstract', 'N/A')`). -/
structure PubmedArticle where
  pmid : Option String
  title : Option String
  abstract : Option String
deriving DecidableEq

/-- Case metadata as consumed in `_search_case_database`
(`meta.get('case_id', ...)`, `meta.get('title', 'N/A')`). -/
structure CaseMeta where
  case_id : Option String
  title : Option String
deriving DecidableEq

/-- An opaque JSON value (the critique step stores `json.loads(...)` output
that the workflow never inspects). -/
inductive Jv where
  | null
  | bool (b : Bool)
  | num (n : Int)
  | str (s : String)
  | arr (elems : List Jv)
  | obj (fields : List (String × Jv))

/-- The dict `{"analysis": ...}` stored by `_analyze_image`; `analysis = none`
also stands for the `{}` failure default of `_safe_step`. -/
structure ImagingFindings where
  analysis : Option String
deriving DecidableEq

/-- `{"warnings": [...]}` as consumed from `drug_service.check_interactions`;
`warnings = none` models a dict without that key. -/
structure DrugResult where
  warnings : Option (List String)
deriving DecidableEq

/-- The `DiagnosticState` dataclass.  `to_dict` (dataclasses.asdict) is a
field-for-field conversion, so the returned record is modelled by the state
itself.  Image bytes are modelled as a list of byte values. -/
structure DiagnosticState where
  diagnosis_id : String
  patient_id : Int
  symptoms_text : String
  image_data : Option (List Nat) := none
  structured_symptoms : Option StructuredSymptoms := none
  patient_details : Option PatientDetails := none
  literature_evidence : List Evidence := []
  case_database_evidence : List Evidence := []
  imaging_findings : Option ImagingFindings := none
  critique_notes : Option Jv := none
  final_report : Option String := none
  triage_level : Option String := none
  drug_interaction_warnings : Option (List String) := none
  error_message : Option String := none

/-- The freshly created state of `run` (only the inputs populated). -/
def initState (diagnosis_id : String) (patient_id : Int) (symptoms_text : String)
    (image_data : Option (List Nat)) : DiagnosticState :=
  { diagnosis_id := diagnosis_id, patient_id := patient_id,
    symptoms_text := symptoms_text, image_data := image_data }

/-! ### The query builder `_get_smart_search_query` -/

/-- The hand-curated Tier-1 map `high_value_map` of `_get_smart_search_query`,
in its Python insertion order. -/
def high_value_map : List (String × String) :=
  [("strawberry tongue", "\"Kawasaki Disease\" OR \"Scarlet Fever\""),
   ("slapped cheek", "\"Parvovirus B19\" OR \"Erythema Infectiosum\""),
   ("bull's-eye rash", "\"Lyme Disease\" OR \"Erythema Migrans\""),
   ("target lesion", "\"Stevens-Johnson Syndrome\" OR \"Erythema Multiforme\""),
   ("nuchal rigidity", "\"meningitis\" OR \"nuchal rigidity\""),
   ("whooping cough", "\"Pertussis\" OR \"Bordetella pertussis\""),
   ("paroxysmal cough", "\"Pertussis\" OR \"whooping cough\"")]

/-- Python truthiness of `s.get('name')`: a present, non-empty name. -/
def truthyName (s : Symptom) : Option String :=
  match s.name with
  | some n => if n = "" then none else some n
  | none => none

/-- The qualifier loop of one symptom: for each qualifier, the inner keyword
loop overwrites `search_query` with the first map entry whose keyword occurs in
the lowercased qualifier, and `if search_query: break` leaves the loop as soon
as the accumulator is non-empty (whether set just now or inherited). -/
def qualLoop (q0 : String) : List String → String
  | [] => q0
  | qual :: rest =>
    let ql := pyLower qual
    let q1 :=
      match high_value_map.find? (fun kv => strContainsSub ql kv.1) with
      | some kv => kv.2
      | none => q0
    if q1 = "" then qualLoop q1 rest else q1

/-- The outer symptom loop: run the qualifier loop; if the accumulator is still
empty, try the exact symptom-name lookup (which `break`s the outer loop on a
hit); otherwise continue with the next symptom (the source does not break
here, so a later symptom's first qualifier can overwrite the accumulator). -/
def symptomLoop (q0 : String) : List Symptom → String
  | [] => q0
  | s :: rest =>
    let q1 := qualLoop q0 s.qualifiers
    if q1 = "" then
      let nm := pyLower (s.name.getD "")
      match high_value_map.find? (fun kv => kv.1 == nm) with
      | some kv => kv.2
      | none => symptomLoop q1 rest
    else symptomLoop q1 rest

/-- `state.patient_details.get('age', 0) if state.patient_details else 0`. -/
def ageOf (pd : Option PatientDetails) : Int :=
  match pd with
  | some d => d.age.getD 0
  | none => 0

/-- The Tier-2 symptom names: `[s.get('name','') for s in symptoms[:2] if s.get('name')]`. -/
def tier2Names (symptoms : List Symptom) : List String :=
  (symptoms.take 2).filterMap truthyName

/-- `_get_smart_search_query`.  Reading `state.structured_symptoms` when it is
`None` raises an `AttributeError` in Python, modelled by the `.error` branch
(inside `run` the field is always populated before this is called). -/
def get_smart_search_query (st : DiagnosticState) : Except String String :=
  match st.structured_symptoms with
  | none => .error "AttributeError: NoneType object has no attribute get"
  | some ss =>
    let symptoms := ss.symptoms.getD []
    if symptoms = [] then .ok ""
    else
      let q := symptomLoop "" symptoms
      if q = "" then
        let names := tier2Names symptoms
        if names = [] then .ok ""
        else
          let ageTerm := if ageOf st.patient_details < 18 then "pediatric" else "adult"
          .ok (ageTerm ++ " differential diagnosis " ++ String.intercalate " " names)
      else .ok q

/-! ### Report synthesis and triage extraction (`_synthesize_report`) -/

/-- `full_report_text.strip().split('\n')[-1]`. -/
def lastLineOf (t : String) : String :=
  (pySplit (pyStrip t) "\n").getLastD ""

/-- The state mutations of `_synthesize_report` once the generation call has
returned: extract the triage level from the last line (inside a `try` whose
`except` sets `"Undetermined"`), then store the report.  A `none` report models
a null `message.content`, on which `.strip()` raises inside the `try`; a
present report never raises there, so a missing marker leaves `triage_level`
untouched. -/
def applySynthesis (st : DiagnosticState) (rep : Option String) : DiagnosticState :=
  match rep with
  | none => { st with triage_level := some "Undetermined", final_report := none }
  | some t =>
    let last := lastLineOf t
    let st1 :=
      if strContainsSub last "TRIAGE_LEVEL:" then
        { st with triage_level := some (pyStrip ((pySplit last "TRIAGE_LEVEL:").getD 1 "")) }
      else st
    { st1 with final_report := some t }

/-- `_synthesize_report` as a fallible step: it raises exactly when the
generation call raises, and otherwise returns the mutated state. -/
def synthesize_report (st : DiagnosticState) (oracle : Except String (Option String)) :
    Except String DiagnosticState :=
  match oracle with
  | .error e => .error e
  | .ok rep => .ok (applySynthesis st rep)

/-! ### Drug-interaction check (`_check_drug_interactions`) -/

/-- `line.strip().lstrip('*- ')`: drop the leading characters drawn from the
set star/dash/space. -/
def lstripStarDashSpace (s : String) : String :=
  String.mk (s.toList.dropWhile fun c => c == '*' || c == '-' || c == ' ')

/-- One line of the "Potential Considerations" section: kept when its stripped
form starts with `*` or `-`, yielding `strip().lstrip('*- ').strip().split(':')[0]`. -/
def parseConditionLine (line : String) : Option String :=
  let l := pyStrip line
  if pyStartsWith l "*" || pyStartsWith l "-" then
    some ((pySplit (pyStrip (lstripStarDashSpace l)) ":").headD "")
  else none

/-- The condition-extraction loop of `_check_drug_interactions`. -/
def parseConditions (rep : Option String) : List String :=
  match rep with
  | none => []
  | some t =>
    if strContainsSub t "Potential Considerations" then
      (pySplit ((pySplit t "Potential Considerations").getD 1 "") "\n").filterMap
        parseConditionLine
    else []

/-- `state.patient_details.get('medical_history', '') if state.patient_details else ''`. -/
def historyOf (pd : Option PatientDetails) : String :=
  match pd with
  | some d => d.medical_history.getD ""
  | none => ""

/-- `_check_drug_interactions`, with `drug_service.check_interactions` as an
oracle: parse conditions from the report; when some exist, call the service
(whose exception propagates to `_safe_step`); on a truthy `warnings` entry,
record the warnings and append the safety section to the report. -/
def check_drug_interactions (st : DiagnosticState)
    (oracle : List String → String → Except String (Option DrugResult)) :
    Except String DiagnosticState :=
  let conds := parseConditions st.final_report
  if conds = [] then .ok st
  else
    match oracle conds (historyOf st.patient_details) with
    | .error e => .error e
    | .ok res =>
      match res with
      | some r =>
        match r.warnings with
        | some ws =>
          if ws = [] then .ok st
          else
            .ok { st with
              drug_interaction_warnings := some ws,
              final_report := some ((st.final_report.getD "") ++
                "\n\n## 🚨 Safety Warnings\n\n" ++
                String.intercalate "\n" (ws.map fun w => "- " ++ w)) }
        | none => .ok st
      | none => .ok st

/-! ### The EHR fetch and the Evidence-phase branches -/

/-- `_fetch_ehr_data`: `ehr_agent.get_patient_details` returns a dict or `None`
(it catches its own database errors); on `None` the step raises `ValueError`. -/
def fetch_ehr_data (patient_id : Int) (lookup : Option PatientDetails) :
    Except String PatientDetails :=
  match lookup with
  | none =>
    .error ("Patient with ID " ++ toString patient_id ++ " not found or data malformed.")
  | some d => .ok d

/-- `_search_pubmed`, with the two `pubmed_service` calls as oracles.  An empty
query means "skip": return `[]` without calling the service.  Service
exceptions propagate (this branch has no internal `try`). -/
def search_pubmed (st : DiagnosticState)
    (osearch : String → Except String (List String))
    (ofetch : List String → Except String (List PubmedArticle)) :
    Except String (List Evidence) := do
  let query ← get_smart_search_query st
  if query = "" then return []
  let pmids ← osearch query
  if pmids = [] then return []
  let arts ← ofetch pmids
  if arts = [] then return []
  return arts.map fun a =>
    { source_id := "PMID:" ++ a.pmid.getD "N/A"
      text := "Title: " ++ a.title.getD "N/A" ++ "\nAbstract: " ++ a.abstract.getD "N/A"
      confidence := (95 : ℚ) / 100 }

/-- `_search_openalex`: empty query skips; the service call sits inside its own
`try/except` returning `[]`, and a falsy (`None` or empty) result also becomes
`[]`. -/
def search_openalex (st : DiagnosticState)
    (osearch : String → Except String (Option (List Evidence))) :
    Except String (List Evidence) := do
  let query ← get_smart_search_query st
  if query = "" then return []
  match osearch query with
  | .error _ => return []
  | .ok res => return res.getD []

/-- `_search_case_database`, with the ChromaDB query as an oracle returning the
zipped `(document, metadata, distance)` triples of `results[...][0]` (a falsy
or malformed result is an empty list or an error, both of which yield `[]` via
the internal `try/except`). -/
def search_case_database (st : DiagnosticState) (chromaAvailable : Bool)
    (oquery : String → Except String (List (String × CaseMeta × ℚ))) :
    Except String (List Evidence) :=
  if !chromaAvailable then .ok []
  else
    match st.structured_symptoms with
    | none => .error "AttributeError: NoneType object has no attribute get"
    | some ss =>
      let symptoms := (ss.symptoms.getD []).filterMap truthyName
      if symptoms = [] then .ok []
      else
        let ageStr :=
          match st.patient_details with
          | some pd =>
            match pd.age with
            | some a => toString a
            | none => "unknown age"
          | none => "unknown age"
        let query := "A case involving a " ++ ageStr ++ " year old with " ++
          String.intercalate " and " symptoms
        match oquery query with
        | .error _ => .ok []
        | .ok triples =>
          if triples = [] then .ok []
          else
            .ok (triples.enum.map fun it =>
              { source_id := "CaseDB:" ++ (it.2.2.1.case_id.getD ("doc_" ++ toString it.1))
                text := "Case Title: " ++ (it.2.2.1.title.getD "N/A") ++ "\nSummary: " ++ it.2.1
                confidence := 1 - it.2.2.2 })

/-- Python truthiness of `state.image_data` (`None` and `b""` are falsy). -/
def imageTruthy (st : DiagnosticState) : Bool :=
  match st.image_data with
  | none => false
  | some bs => !bs.isEmpty

/-- `_analyze_image`: `None` for a falsy image, otherwise the GPT-4V call
(whose `message.content` may be null) wrapped as `{"analysis": ...}`. -/
def analyze_image (st : DiagnosticState) (oracle : Except String (Option String)) :
    Except String (Option ImagingFindings) :=
  if imageTruthy st then oracle.map fun content => some { analysis := content }
  else .ok none

/-! ### `_safe_step` and the Phase Scheduler (`run`) -/

/-- The outcome of every external call made during one run.  The search
oracles are functions of the query the workflow sends. -/
structure Oracle where
  analyze : Except String StructuredSymptoms
  ehrLookup : Option PatientDetails
  pubmedSearch : String → Except String (List String)
  pubmedFetch : List String → Except String (List PubmedArticle)
  openalexSearch : String → Except String (Option (List Evidence))
  chromaAvailable : Bool
  caseQuery : String → Except String (List (String × CaseMeta × ℚ))
  imageAnalyze : Except String (Option String)
  critique : Except String Jv
  synthesize : Except String (Option String)
  drugCheck : List String → String → Except String (Option DrugResult)

/-- The message `_safe_step` writes into `state.error_message` on a failure. -/
def stepErrorMessage (stepName msg : String) : String :=
  "Error in step '" ++ stepName ++ "': " ++ msg

/-- The name-based choice of `_safe_step`'s contained-failure default:
`[] if "search" in step_name.lower() else {}`. -/
def stepDefaultIsList (stepName : String) : Bool :=
  strContainsSub (pyLower stepName) "search"

/-- `_safe_step` for a non-state-modifying step: on success return the result
and leave `error_message` alone; on an exception overwrite `error_message`
(unconditionally, as the source does) and return the contained-failure
default.  Each call site passes the typed translation of the Python default
selected by `stepDefaultIsList` for its step name. -/
def safeStep {α : Type} (stepName : String) (err0 : Option String)
    (outcome : Except String α) (pyDefault : α) : α × Option String :=
  match outcome with
  | .ok v => (v, err0)
  | .error e => (pyDefault, some (stepErrorMessage stepName e))

/-- `_safe_step` with `is_state_modifier=True`: on an exception the (so far
unmodified) state is returned with `error_message` overwritten. -/
def safeStepState (stepName : String) (st : DiagnosticState)
    (outcome : Except String DiagnosticState) : DiagnosticState :=
  match outcome with
  | .ok st2 => st2
  | .error e => { st with error_message := some (stepErrorMessage stepName e) }

/-- The `{}` failure default read back as a symptom dict. -/
def emptyStructuredSymptoms : StructuredSymptoms := { symptoms := none }

/-- The `{}` failure default read back as a patient dict. -/
def emptyPatientDetails : PatientDetails := { age := none, medical_history := none }

/-- The `{}` failure default stored into `imaging_findings`. -/
def emptyImagingFindings : ImagingFindings := { analysis := none }

/-- The `{}` failure default stored into `critique_notes`. -/
def emptyCritique : Jv := Jv.obj []

/-- PHASE 1, sequential: symptom analysis then the EHR fetch, each through
`_safe_step` (neither step name contains "search", so both fail to `{}` and
the run continues). -/
def foundationPhase (o : Oracle) (st : DiagnosticState) : DiagnosticState :=
  let p1 := safeStep "SymptomAnalyzer" st.error_message o.analyze emptyStructuredSymptoms
  let st1 := { st with structured_symptoms := some p1.1, error_message := p1.2 }
  let p2 := safeStep "EHR_Fetcher" st1.error_message
    (fetch_ehr_data st1.patient_id o.ehrLookup) emptyPatientDetails
  { st1 with patient_details := some p2.1, error_message := p2.2 }

/-- PHASE 2, the parallel fan-out/fan-in: the three (or four) branches each run
through `_safe_step`; `asyncio.gather(..., return_exceptions=True)` then reads
the results in task order, `literature_evidence` being the concatenation of
the PubMed and OpenAlex lists (the `isinstance(_, Exception)` guards are inert
because `_safe_step` never re-raises).  Writes to the shared `error_message`
are modelled in task order; concurrently the real completion order is
scheduler-dependent, but whether it ends up set is not. -/
def evidencePhase (o : Oracle) (st : DiagnosticState) : DiagnosticState :=
  let p1 := safeStep "PubMedSearcher" st.error_message
    (search_pubmed st o.pubmedSearch o.pubmedFetch) []
  let p2 := safeStep "OpenAlexSearcher" p1.2 (search_openalex st o.openalexSearch) []
  let p3 := safeStep "CaseSearcher" p2.2
    (search_case_database st o.chromaAvailable o.caseQuery) []
  let st3 := { st with literature_evidence := p1.1 ++ p2.1,
                       case_database_evidence := p3.1, error_message := p3.2 }
  if imageTruthy st then
    let p4 := safeStep "ImagingAnalyzer" st3.error_message
      (analyze_image st o.imageAnalyze) (some emptyImagingFindings)
    { st3 with imaging_findings := p4.1, error_message := p4.2 }
  else st3

/-- PHASE 3, sequential: critique, report synthesis (a state modifier that
also extracts the triage level), then the drug-interaction check. -/
def synthesisPhase (o : Oracle) (st : DiagnosticState) : DiagnosticState :=
  let p1 := safeStep "CritiqueAgent" st.error_message o.critique emptyCritique
  let st1 := { st with critique_notes := some p1.1, error_message := p1.2 }
  let st2 := safeStepState "ReportSynthesizer" st1 (synthesize_report st1 o.synthesize)
  safeStepState "DrugChecker" st2 (check_drug_interactions st2 o.drugCheck)

/-- `OrchestratorWorkflow.run`: build the fresh state and run the three
phases.  Every step is wrapped, so the body of the source's outer
`try/except` never raises in this model and the returned dict (`to_dict`) is
the final state itself. -/
def runWorkflow (diagnosis_id : String) (patient_id : Int) (symptoms_text : String)
    (image_data : Option (List Nat)) (o : Oracle) : DiagnosticState :=
  synthesisPhase o (evidencePhase o
    (foundationPhase o (initState diagnosis_id patient_id symptoms_text image_data)))

/-! ### Concrete fixtures used by the counterexamples and witnesses -/

/-- A benign oracle: every external call succeeds with small concrete data. -/
def oracleBase : Oracle :=
  { analyze := .ok ⟨some [⟨some "cough", []⟩]⟩
    ehrLookup := some ⟨some 30, some "none"⟩
    pubmedSearch := fun _ => .ok ["111"]
    pubmedFetch := fun _ => .ok [⟨some "111", some "T", some "A"⟩]
    openalexSearch := fun _ => .ok (some [⟨"OA:1", "OA text", 1⟩])
    chromaAvailable := true
    caseQuery := fun _ => .ok [("case doc", ⟨some "c1", some "CT"⟩, 0)]
    imageAnalyze := .ok (some "img")
    critique := .ok (Jv.obj [])
    synthesize := .ok (some "Report body\nTRIAGE_LEVEL: Urgent")
    drugCheck := fun _ _ => .ok none }

/-- The benign oracle with a not-found patient lookup. -/
def oracleEhrMissing : Oracle := { oracleBase with ehrLookup := none }

/-- The benign oracle with a failing symptom analysis and a not-found lookup. -/
def oracleTwoFailures : Oracle :=
  { oracleBase with analyze := .error "boom", ehrLookup := none }

/-- The benign oracle with a throwing PubMed search. -/
def oraclePubmedDown : Oracle :=
  { oracleBase with pubmedSearch := fun _ => .error "PubMed API failure" }

/-- An oracle on which every Evidence-phase service call throws. -/
def oracleAllSearchesDown : Oracle :=
  { oracleBase with
    pubmedSearch := fun _ => .error "p"
    openalexSearch := fun _ => .error "o"
    caseQuery := fun _ => .error "c" }

/-- The benign oracle whose generated report has no triage trailer. -/
def oracleNoTrailer : Oracle :=
  { oracleBase with synthesize := .ok (some "no trailer here") }

/-- A state holding the structured symptom `rash` with the misspelled
qualifier "slaped cheek" (a fuzzy-matcher hit, not a substring hit). -/
def typoQualifierState : DiagnosticState :=
  { diagnosis_id := "d5", patient_id := 1, symptoms_text := "rash",
    structured_symptoms := some ⟨some [⟨some "rash", ["slaped cheek"]⟩]⟩,
    patient_details := some ⟨some 30, none⟩ }

/-- The spec's own Tier-1 example state: `[{name: "rash", qualifiers:
["slapped cheek"]}]`. -/
def slappedCheekState : DiagnosticState :=
  { diagnosis_id := "d5b", patient_id := 1, symptoms_text := "rash",
    structured_symptoms := some ⟨some [⟨some "rash", ["slapped cheek"]⟩]⟩,
    patient_details := some ⟨some 30, none⟩ }

/-- The spec's Tier-2 example state: cough and fever, age 6. -/
def coughFeverState : DiagnosticState :=
  { diagnosis_id := "d8", patient_id := 1, symptoms_text := "cough and fever",
    structured_symptoms := some ⟨some [⟨some "cough", []⟩, ⟨some "fever", []⟩]⟩,
    patient_details := some ⟨some 6, none⟩ }

/-! ### Helper lemmas about the embedding -/

@[simp] theorem safeStep_ok {α : Type} (n : String) (e : Option String) (v : α) (d : α) :
    safeStep n e (.ok v) d = (v, e) := rfl

@[simp] theorem safeStep_error {α : Type} (n : String) (e : Option String) (msg : String)
    (d : α) : safeStep n e (.error msg) d = (d, some (stepErrorMessage n msg)) := rfl

@[simp] theorem exceptBind_ok {ε α β : Type} (a : α) (f : α → Except ε β) :
    (Except.ok a >>= f : Except ε β) = f a := rfl

@[simp] theorem exceptBind_error {ε α β : Type} (e : ε) (f : α → Except ε β) :
    (Except.error e >>= f : Except ε β) = .error e := rfl

@[simp] theorem exceptPure {ε α : Type} (a : α) : (pure a : Except ε α) = .ok a := rfl

theorem safeStep_snd_isSome {α : Type} (n : String) (e : Option String)
    (out : Except String α) (d : α) (h : e.isSome = true) :
    (safeStep n e out d).2.isSome = true := by
  cases out <;> simp [safeStep, h]

/-- `applySynthesis` only writes `triage_level` and `final_report`. -/
theorem applySynthesis_preserve (f : DiagnosticState → γ)
    (hf : ∀ st t r, f { st with triage_level := t, final_report := r } = f st)
    (st : DiagnosticState) (rep : Option String) : f (applySynthesis st rep) = f st := by
  cases rep with
  | none => exact hf st _ _
  | some t =>
    simp only [applySynthesis]
    split
    · exact hf st _ _
    · exact hf st st.triage_level (some t)

/-- A successful `_check_drug_interactions` only writes
`drug_interaction_warnings` and `final_report`. -/
theorem check_drug_preserve (f : DiagnosticState → γ)
    (hf : ∀ st w r, f { st with drug_interaction_warnings := w, final_report := r } = f st)
    (st : DiagnosticState) (od : List String → String → Except String (Option DrugResult))
    (st' : DiagnosticState) (h : check_drug_interactions st od = .ok st') : f st' = f st := by
  simp only [check_drug_interactions] at h
  repeat' split at h
  all_goals
    first
      | (injection h with he; subst he; first | rfl | exact hf st _ _)
      | simp at h

/-- A successful `_check_drug_interactions` keeps `final_report` populated. -/
theorem check_drug_final_report (st : DiagnosticState)
    (od : List String → String → Except String (Option DrugResult))
    (st' : DiagnosticState) (h : check_drug_interactions st od = .ok st')
    (hr : st.final_report ≠ none) : st'.final_report ≠ none := by
  simp only [check_drug_interactions] at h
  repeat' split at h
  all_goals
    first
      | (injection h with he; subst he; first | exact hr | simp)
      | simp at h

/-- The generic frame lemma for the Synthesis phase: any field view untouched
by the critique write, the report/triage write, the drug-warning write and the
error write is preserved by `synthesisPhase`. -/
theorem synthesisPhase_preserve (f : DiagnosticState → γ)
    (hsyn : ∀ st t r, f { st with triage_level := t, final_report := r } = f st)
    (hdrug : ∀ st w r, f { st with drug_interaction_warnings := w, final_report := r } = f st)
    (herr : ∀ st e, f { st with error_message := some e } = f st)
    (hcrit : ∀ st c e, f { st with critique_notes := c, error_message := e } = f st)
    (o : Oracle) (st : DiagnosticState) : f (synthesisPhase o st) = f st := by
  have h2 : ∀ st2 : DiagnosticState,
      f (safeStepState "DrugChecker" st2 (check_drug_interactions st2 o.drugCheck)) = f st2 := by
    intro st2
    cases hd : check_drug_interactions st2 o.drugCheck with
    | error e => simp [safeStepState, herr]
    | ok st3 =>
      simpa [safeStepState] using check_drug_preserve f hdrug st2 o.drugCheck st3 hd
  have h1 : ∀ st1 : DiagnosticState,
      f (safeStepState "ReportSynthesizer" st1 (synthesize_report st1 o.synthesize)) = f st1 := by
    intro st1
    cases hs : o.synthesize with
    | error e => simp [synthesize_report, safeStepState, herr]
    | ok rep => simp [synthesize_report, safeStepState, applySynthesis_preserve f hsyn]
  simp only [synthesisPhase]
  rw [h2, h1]
  exact hcrit st _ _

theorem synthesisPhase_patient_details (o : Oracle) (st : DiagnosticState) :
    (synthesisPhase o st).patient_details = st.patient_details :=
  synthesisPhase_preserve (fun s => s.patient_details)
    (fun _ _ _ => rfl) (fun _ _ _ => rfl) (fun _ _ => rfl) (fun _ _ _ => rfl) o st

theorem synthesisPhase_structured (o : Oracle) (st : DiagnosticState) :
    (synthesisPhase o st).structured_symptoms = st.structured_symptoms :=
  synthesisPhase_preserve (fun s => s.structured_symptoms)
    (fun _ _ _ => rfl) (fun _ _ _ => rfl) (fun _ _ => rfl) (fun _ _ _ => rfl) o st

theorem synthesisPhase_literature (o : Oracle) (st : DiagnosticState) :
    (synthesisPhase o st).literature_evidence = st.literature_evidence :=
  synthesisPhase_preserve (fun s => s.literature_evidence)
    (fun _ _ _ => rfl) (fun _ _ _ => rfl) (fun _ _ => rfl) (fun _ _ _ => rfl) o st

theorem synthesisPhase_case (o : Oracle) (st : DiagnosticState) :
    (synthesisPhase o st).case_database_evidence = st.case_database_evidence :=
  synthesisPhase_preserve (fun s => s.case_database_evidence)
    (fun _ _ _ => rfl) (fun _ _ _ => rfl) (fun _ _ => rfl) (fun _ _ _ => rfl) o st

theorem synthesisPhase_ids (o : Oracle) (st : DiagnosticState) :
    (synthesisPhase o st).diagnosis_id = st.diagnosis_id ∧
    (synthesisPhase o st).patient_id = st.patient_id ∧
    (synthesisPhase o st).symptoms_text = st.symptoms_text :=
  ⟨synthesisPhase_preserve (fun s => s.diagnosis_id)
      (fun _ _ _ => rfl) (fun _ _ _ => rfl) (fun _ _ => rfl) (fun _ _ _ => rfl) o st,
   synthesisPhase_preserve (fun s => s.patient_id)
      (fun _ _ _ => rfl) (fun _ _ _ => rfl) (fun _ _ => rfl) (fun _ _ _ => rfl) o st,
   synthesisPhase_preserve (fun s => s.symptoms_text)
      (fun _ _ _ => rfl) (fun _ _ _ => rfl) (fun _ _ => rfl) (fun _ _ _ => rfl) o st⟩

/-- The wrapped drug-check step never touches `critique_notes`. -/
theorem drugStep_critique (od : List String → String → Except String (Option DrugResult))
    (st2 : DiagnosticState) :
    (safeStepState "DrugChecker" st2 (check_drug_interactions st2 od)).critique_notes =
      st2.critique_notes := by
  cases hd : check_drug_interactions st2 od with
  | error e => rfl
  | ok st3 =>
    simpa [safeStepState] using
      check_drug_preserve (fun s => s.critique_notes) (fun _ _ _ => rfl) st2 od st3 hd

/-- The wrapped report step never touches `critique_notes`. -/
theorem reportStep_critique (osynth : Except String (Option String))
    (st1 : DiagnosticState) :
    (safeStepState "ReportSynthesizer" st1 (synthesize_report st1 osynth)).critique_notes =
      st1.critique_notes := by
  cases osynth with
  | error e => rfl
  | ok rep =>
    simpa [synthesize_report, safeStepState] using
      applySynthesis_preserve (fun s => s.critique_notes) (fun _ _ _ => rfl) st1 rep

/-- `synthesisPhase` always fills the critique slot (a failed critique step
stores the `{}` default, still a present value). -/
theorem synthesisPhase_critique_isSome (o : Oracle) (st : DiagnosticState) :
    (synthesisPhase o st).critique_notes.isSome = true := by
  simp only [synthesisPhase]
  rw [drugStep_critique, reportStep_critique]
  rfl

/-- An already-set `error_message` stays set through the wrapped drug check. -/
theorem drugStep_error_mono (od : List String → String → Except String (Option DrugResult))
    (st2 : DiagnosticState) (h : st2.error_message.isSome = true) :
    (safeStepState "DrugChecker" st2
        (check_drug_interactions st2 od)).error_message.isSome = true := by
  cases hd : check_drug_interactions st2 od with
  | error e => rfl
  | ok st3 =>
    have := check_drug_preserve (fun s => s.error_message) (fun _ _ _ => rfl) st2 od st3 hd
    simpa [safeStepState, this] using h

/-- An already-set `error_message` stays set through the wrapped report step. -/
theorem reportStep_error_mono (osynth : Except String (Option String))
    (st1 : DiagnosticState) (h : st1.error_message.isSome = true) :
    (safeStepState "ReportSynthesizer" st1
        (synthesize_report st1 osynth)).error_message.isSome = true := by
  cases osynth with
  | error e => rfl
  | ok rep =>
    have := applySynthesis_preserve (fun s => s.error_message) (fun _ _ _ => rfl) st1 rep
    simpa [synthesize_report, safeStepState, this] using h

/-- An already-set `error_message` stays set through the Synthesis phase. -/
theorem synthesisPhase_error_mono (o : Oracle) (st : DiagnosticState)
    (h : st.error_message.isSome = true) :
    (synthesisPhase o st).error_message.isSome = true := by
  simp only [synthesisPhase]
  apply drugStep_error_mono
  apply reportStep_error_mono
  exact safeStep_snd_isSome _ _ _ _ h

/-- An already-set `error_message` stays set through the Evidence phase. -/
theorem evidencePhase_error_mono (o : Oracle) (st : DiagnosticState)
    (h : st.error_message.isSome = true) :
    (evidencePhase o st).error_message.isSome = true := by
  simp only [evidencePhase]
  split
  · exact safeStep_snd_isSome _ _ _ _ (safeStep_snd_isSome _ _ _ _
      (safeStep_snd_isSome _ _ _ _ (safeStep_snd_isSome _ _ _ _ h)))
  · exact safeStep_snd_isSome _ _ _ _ (safeStep_snd_isSome _ _ _ _
      (safeStep_snd_isSome _ _ _ _ h))

/-- Frames for the Evidence phase: it writes only the two evidence lists,
`imaging_findings` and `error_message`. -/
theorem evidencePhase_frame (o : Oracle) (st : DiagnosticState) :
    (evidencePhase o st).diagnosis_id = st.diagnosis_id ∧
    (evidencePhase o st).patient_id = st.patient_id ∧
    (evidencePhase o st).symptoms_text = st.symptoms_text ∧
    (evidencePhase o st).structured_symptoms = st.structured_symptoms ∧
    (evidencePhase o st).patient_details = st.patient_details ∧
    (evidencePhase o st).critique_notes = st.critique_notes ∧
    (evidencePhase o st).final_report = st.final_report ∧
    (evidencePhase o st).triage_level = st.triage_level := by
  simp only [evidencePhase]
  split <;> exact ⟨rfl, rfl, rfl, rfl, rfl, rfl, rfl, rfl⟩

/-- Frames for the Foundation phase: it writes only `structured_symptoms`,
`patient_details` and `error_message`. -/
theorem foundationPhase_frame (o : Oracle) (st : DiagnosticState) :
    (foundationPhase o st).diagnosis_id = st.diagnosis_id ∧
    (foundationPhase o st).patient_id = st.patient_id ∧
    (foundationPhase o st).symptoms_text = st.symptoms_text ∧
    (foundationPhase o st).triage_level = st.triage_level ∧
    (foundationPhase o st).final_report = st.final_report :=
  ⟨rfl, rfl, rfl, rfl, rfl⟩

/-- `find?` returns the first element satisfying the predicate: everything
before it fails the predicate. -/
theorem find?_first {α : Type} (p : α → Bool) :
    ∀ (l : List α) (x : α), l.find? p = some x →
      ∃ l₁ l₂, l = l₁ ++ x :: l₂ ∧ ∀ y ∈ l₁, p y = false := by
  intro l
  induction l with
  | nil => intro x h; simp at h
  | cons a t ih =>
    intro x h
    by_cases hp : p a = true
    · rw [List.find?_cons_of_pos t hp] at h
      cases h
      exact ⟨[], t, rfl, by simp⟩
    · rw [List.find?_cons_of_neg t (by simpa using hp)] at h
      obtain ⟨l₁, l₂, hl, hall⟩ := ih x h
      refine ⟨a :: l₁, l₂, by simp [hl], ?_⟩
      intro y hy
      rcases List.mem_cons.mp hy with hy | hy
      · subst hy; simpa using hp
      · exact hall y hy

/-- The wrapped drug-check step never touches `triage_level`. -/
theorem drugStep_triage (od : List String → String → Except String (Option DrugResult))
    (st2 : DiagnosticState) :
    (safeStepState "DrugChecker" st2 (check_drug_interactions st2 od)).triage_level =
      st2.triage_level := by
  cases hd : check_drug_interactions st2 od with
  | error e => rfl
  | ok st3 =>
    simpa [safeStepState] using
      check_drug_preserve (fun s => s.triage_level) (fun _ _ _ => rfl) st2 od st3 hd

/-- The wrapped drug-check step keeps a populated report populated. -/
theorem drugStep_final_ne (od : List String → String → Except String (Option DrugResult))
    (st2 : DiagnosticState) (h : st2.final_report ≠ none) :
    (safeStepState "DrugChecker" st2 (check_drug_interactions st2 od)).final_report ≠
      none := by
  cases hd : check_drug_interactions st2 od with
  | error e => simpa [safeStepState] using h
  | ok st3 => simpa [safeStepState] using check_drug_final_report st2 od st3 hd h

/-- A failing symptom-extraction call sets the error field. -/
theorem foundationPhase_error_of_analyze (o : Oracle) (st : DiagnosticState) (e : String)
    (h : o.analyze = .error e) :
    (foundationPhase o st).error_message.isSome = true := by
  simp only [foundationPhase, h, safeStep_error]
  exact safeStep_snd_isSome _ _ _ _ rfl

/-- A not-found patient lookup sets the error field. -/
theorem foundationPhase_error_of_ehr (o : Oracle) (st : DiagnosticState)
    (h : o.ehrLookup = none) :
    (foundationPhase o st).error_message.isSome = true := by
  simp [foundationPhase, h, fetch_ehr_data]

/-- A throwing PubMed branch sets the error field. -/
theorem evidencePhase_error_of_pubmed (o : Oracle) (st : DiagnosticState) (e : String)
    (h : search_pubmed st o.pubmedSearch o.pubmedFetch = .error e) :
    (evidencePhase o st).error_message.isSome = true := by
  simp only [evidencePhase, h, safeStep_error]
  split
  · exact safeStep_snd_isSome _ _ _ _ (safeStep_snd_isSome _ _ _ _
      (safeStep_snd_isSome _ _ _ _ rfl))
  · exact safeStep_snd_isSome _ _ _ _ (safeStep_snd_isSome _ _ _ _ rfl)

/-- A failing critique call sets the error field. -/
theorem synthesisPhase_error_of_critique (o : Oracle) (st : DiagnosticState) (e : String)
    (h : o.critique = .error e) :
    (synthesisPhase o st).error_message.isSome = true := by
  simp only [synthesisPhase, h, safeStep_error]
  apply drugStep_error_mono
  apply reportStep_error_mono
  rfl

/-- A failing report-generation call sets the error field. -/
theorem synthesisPhase_error_of_synth (o : Oracle) (st : DiagnosticState) (e : String)
    (h : o.synthesize = .error e) :
    (synthesisPhase o st).error_message.isSome = true := by
  simp only [synthesisPhase]
  apply drugStep_error_mono
  simp [h, synthesize_report, safeStepState]

/-- The identifying inputs flow unchanged into the returned record. -/
theorem runWorkflow_ids (did : String) (pid : Int) (stext : String)
    (img : Option (List Nat)) (o : Oracle) :
    (runWorkflow did pid stext img o).diagnosis_id = did ∧
    (runWorkflow did pid stext img o).patient_id = pid ∧
    (runWorkflow did pid stext img o).symptoms_text = stext := by
  simp only [runWorkflow]
  have hs := synthesisPhase_ids o (evidencePhase o (foundationPhase o
    (initState did pid stext img)))
  have he := evidencePhase_frame o (foundationPhase o (initState did pid stext img))
  have hf := foundationPhase_frame o (initState did pid stext img)
  refine ⟨?_, ?_, ?_⟩
  · rw [hs.1, he.1, hf.1]
    rfl
  · rw [hs.2.1, he.2.1, hf.2.1]
    rfl
  · rw [hs.2.2, he.2.2.1, hf.2.2.1]
    rfl

/-- After the Foundation phase the symptom-dict slot is always populated (by
the analysis result or by the `{}` failure default), so the query builder
never sees a `None` there inside `run`. -/
theorem get_smart_ok (st : DiagnosticState) (ss : StructuredSymptoms)
    (h : st.structured_symptoms = some ss) :
    ∃ q, get_smart_search_query st = .ok q := by
  simp only [get_smart_search_query, h]
  split
  · exact ⟨_, rfl⟩
  · split
    · split
      · exact ⟨_, rfl⟩
      · exact ⟨_, rfl⟩
    · exact ⟨_, rfl⟩

/-- With a universally failing PubMed search service, the PubMed branch either
skips (empty query) or propagates the service error to its wrapper. -/
theorem search_pubmed_allfail (st : DiagnosticState) (ss : StructuredSymptoms)
    (h : st.structured_symptoms = some ss) (os : String → Except String (List String))
    (eP : String) (hP : ∀ q, os q = .error eP)
    (of : List String → Except String (List PubmedArticle)) :
    search_pubmed st os of = .ok [] ∨ search_pubmed st os of = .error eP := by
  obtain ⟨q, hq⟩ := get_smart_ok st ss h
  by_cases hq0 : q = ""
  · left
    simp [search_pubmed, hq, hq0]
  · right
    simp [search_pubmed, hq, hq0, hP q]

/-- The OpenAlex branch never throws: it skips on an empty query and catches
its own service errors. -/
theorem search_openalex_allfail (st : DiagnosticState) (ss : StructuredSymptoms)
    (h : st.structured_symptoms = some ss)
    (os : String → Except String (Option (List Evidence))) (eO : String)
    (hO : ∀ q, os q = .error eO) :
    search_openalex st os = .ok [] := by
  obtain ⟨q, hq⟩ := get_smart_ok st ss h
  by_cases hq0 : q = "" <;> simp [search_openalex, hq, hq0, hO q]

/-- The case branch never throws on a populated symptom dict: it skips or
catches its own query errors. -/
theorem search_case_allfail (st : DiagnosticState) (ss : StructuredSymptoms)
    (h : st.structured_symptoms = some ss) (ca : Bool)
    (oc : String → Except String (List (String × CaseMeta × ℚ))) (eC : String)
    (hC : ∀ q, oc q = .error eC) :
    search_case_database st ca oc = .ok [] := by
  simp only [search_case_database, h]
  cases ca
  · simp
  · by_cases hn : (ss.symptoms.getD []).filterMap truthyName = [] <;> simp [hn, hC]

/-- Tier 1 on a single-symptom list: when the first qualifier contains (as a
substring, after lowercasing) some keyword of `high_value_map`, the query is
the first matching entry's phrase, and Tier 2 is never consulted. -/
theorem tier1_first_qual_hit (st : DiagnosticState) (nm : Option String) (ql : String)
    (rest : List String) (kv : String × String)
    (h : st.structured_symptoms = some ⟨some [⟨nm, ql :: rest⟩]⟩)
    (hf : high_value_map.find? (fun p => strContainsSub (pyLower ql) p.1) = some kv) :
    get_smart_search_query st = .ok kv.2 := by
  have hkv : kv.2 ≠ "" := by
    have hm := List.mem_of_find?_eq_some hf
    fin_cases hm <;> decide
  simp [get_smart_search_query, h, symptomLoop, qualLoop, hf, hkv]

/-! ### C9: the Lexicon Matcher -/

/-- C9, counterexample.  The claim asserts that
`match_high_value "slapped cheek appearance"` returns the reference term
`"slapped cheek"`.  In fact the similarity ratio of that pair is
`2*13/37 ≈ 0.70`, below the 0.8 threshold, and no other reference phrase
matches either, so the matcher returns nothing. -/
theorem C9_counterexample :
    match_high_value "slapped cheek appearance" = none ∧
    similarityAbove "slapped cheek appearance".toList "slapped cheek".toList = false := by
  constructor <;> decide

/-- C9, amended.  `match_high_value` lowercases its input, scans every
reference phrase in category/phrase iteration order, and returns the first
phrase whose similarity ratio strictly exceeds 0.8; it returns nothing when no
phrase qualifies.  The example `"slapped cheek appearance"` matches nothing
(its best ratio, against "slapped cheek", is 26/37 ≤ 0.8); `"unrelated term
xyz"` matches nothing; the misspelling `"slaped cheek"` (ratio 0.96) does
match `"slapped cheek"`. -/
theorem C9_amended :
    (∀ q r, match_high_value q = some r →
      r ∈ allHighValuePhrases ∧
      similarityAbove (pyLower q).toList r.toList = true ∧
      ∃ l₁ l₂, allHighValuePhrases = l₁ ++ r :: l₂ ∧
        ∀ p ∈ l₁, similarityAbove (pyLower q).toList p.toList = false) ∧
    (∀ q, match_high_value q = none →
      ∀ r ∈ allHighValuePhrases, similarityAbove (pyLower q).toList r.toList = false) ∧
    match_high_value "slapped cheek appearance" = none ∧
    match_high_value "unrelated term xyz" = none ∧
    match_high_value "slaped cheek" = some "slapped cheek" := by
  refine ⟨?_, ?_, by decide, by decide, by decide⟩
  · intro q r h
    simp only [match_high_value] at h
    have hmem := List.mem_of_find?_eq_some h
    have hp := List.find?_some h
    obtain ⟨l₁, l₂, hl, hall⟩ := find?_first _ _ _ h
    exact ⟨hmem, by simpa using hp, l₁, l₂, hl, hall⟩
  · intro q h r hr
    simp only [match_high_value] at h
    simpa using List.find?_eq_none.mp h r hr

/-- C9 witness: the amended theorem applied at the concrete inputs
`"slaped cheek"` (a hit) and `"unrelated term xyz"` (a miss). -/
theorem C9_amended_witness :
    ("slapped cheek" ∈ allHighValuePhrases ∧
      similarityAbove (pyLower "slaped cheek").toList "slapped cheek".toList = true ∧
      ∃ l₁ l₂, allHighValuePhrases = l₁ ++ "slapped cheek" :: l₂ ∧
        ∀ p ∈ l₁, similarityAbove (pyLower "slaped cheek").toList p.toList = false) ∧
    (∀ r ∈ allHighValuePhrases,
      similarityAbove (pyLower "unrelated term xyz").toList r.toList = false) :=
  ⟨C9_amended.1 "slaped cheek" "slapped cheek" rfl,
   C9_amended.2.1 "unrelated term xyz" rfl⟩

/-! ### C5: Tier-1 precedence in the Query Builder -/

/-- C5, counterexample.  The claim asserts Tier 1 invokes the fuzzy Lexicon
Matcher on each qualifier and returns the mapped phrase on a matcher hit.  On
the misspelled qualifier "slaped cheek" the fuzzy matcher does hit (ratio
0.96 against "slapped cheek", whose mapped phrase exists in the hand-curated
table), yet the builder falls through to the Tier-2 generic phrase because
Tier 1 actually tests substring containment, not the matcher. -/
theorem C5_counterexample :
    match_high_value "slaped cheek" = some "slapped cheek" ∧
    (high_value_map.find? fun kv => kv.1 == "slapped cheek") =
      some ("slapped cheek", "\"Parvovirus B19\" OR \"Erythema Infectiosum\"") ∧
    get_smart_search_query typoQualifierState = .ok "adult differential diagnosis rash" ∧
    "adult differential diagnosis rash" ≠
      "\"Parvovirus B19\" OR \"Erythema Infectiosum\"" := by
  refine ⟨by decide, by decide, by rfl, by decide⟩

/-- C5, amended.  Tier 1 tests substring containment of the curated map's
keywords in each lowercased qualifier (the fuzzy Lexicon Matcher is not
consulted).  On a single-symptom input whose first qualifier contains a
keyword, the first matching entry's mapped phrase is returned and Tier 2 is
skipped; in particular `[{name: "rash", qualifiers: ["slapped cheek"]}]`
yields the Tier-1 mapped phrase, which differs from either Tier-2 generic
phrase. -/
theorem C5_amended :
    (∀ (st : DiagnosticState) (nm : Option String) (ql : String) (rest : List String)
        (kv : String × String),
      st.structured_symptoms = some ⟨some [⟨nm, ql :: rest⟩]⟩ →
      high_value_map.find? (fun p => strContainsSub (pyLower ql) p.1) = some kv →
      get_smart_search_query st = .ok kv.2) ∧
    (∀ st : DiagnosticState,
      st.structured_symptoms = some ⟨some [⟨some "rash", ["slapped cheek"]⟩]⟩ →
      get_smart_search_query st = .ok "\"Parvovirus B19\" OR \"Erythema Infectiosum\"") ∧
    "\"Parvovirus B19\" OR \"Erythema Infectiosum\"" ≠
      "pediatric differential diagnosis rash" ∧
    "\"Parvovirus B19\" OR \"Erythema Infectiosum\"" ≠
      "adult differential diagnosis rash" := by
  refine ⟨fun st nm ql rest kv h hf => tier1_first_qual_hit st nm ql rest kv h hf,
    ?_, by decide, by decide⟩
  intro st h
  exact tier1_first_qual_hit st (some "rash") "slapped cheek" []
    ("slapped cheek", "\"Parvovirus B19\" OR \"Erythema Infectiosum\"") h (by decide)

/-- C5 witness: the amended theorem applied at the spec's own example state. -/
theorem C5_amended_witness :
    get_smart_search_query slappedCheekState =
      .ok "\"Parvovirus B19\" OR \"Erythema Infectiosum\"" :=
  C5_amended.2.1 slappedCheekState rfl

/-! ### C2: triage extraction -/

/-- C2, counterexample.  The claim asserts that a report whose last line lacks
the marker gets `triage_level = "Undetermined"`, and that `triage_level` is
set iff `final_report` was produced.  Running with a generated report of
"no trailer here" produces a populated `final_report` and an unset
`triage_level`. -/
theorem C2_counterexample :
    (runWorkflow "d2" 1 "s" none oracleNoTrailer).final_report = some "no trailer here" ∧
    (runWorkflow "d2" 1 "s" none oracleNoTrailer).triage_level = none := by
  constructor <;> rfl

/-- C2, amended.  When the generation call returns text whose last
non-whitespace line contains "TRIAGE_LEVEL:", `triage_level` is set to the
trimmed text between the marker and any further occurrence of it; when the
last line lacks the marker, `triage_level` is left unset (`None`, not
"Undetermined") although `final_report` is populated; "Undetermined" arises
exactly when the extraction raises, i.e. on a null generation payload, and
then `final_report` is null as well.  So triage is not set iff a report was
produced. -/
theorem C2_amended :
    (∀ (did : String) (pid : Int) (stext : String) (img : Option (List Nat)) (o : Oracle)
        (t : String),
      o.synthesize = .ok (some t) →
      (strContainsSub (lastLineOf t) "TRIAGE_LEVEL:" = true →
        (runWorkflow did pid stext img o).triage_level =
          some (pyStrip ((pySplit (lastLineOf t) "TRIAGE_LEVEL:").getD 1 ""))) ∧
      (strContainsSub (lastLineOf t) "TRIAGE_LEVEL:" = false →
        (runWorkflow did pid stext img o).triage_level = none ∧
        (runWorkflow did pid stext img o).final_report ≠ none)) ∧
    (∀ (did : String) (pid : Int) (stext : String) (img : Option (List Nat)) (o : Oracle),
      o.synthesize = .ok none →
      (runWorkflow did pid stext img o).triage_level = some "Undetermined" ∧
      (runWorkflow did pid stext img o).final_report = none) := by
  constructor
  · intro did pid stext img o t hso
    have htr : (evidencePhase o (foundationPhase o
        (initState did pid stext img))).triage_level = none := by
      rw [(evidencePhase_frame o _).2.2.2.2.2.2.2, (foundationPhase_frame o _).2.2.2.1]
      rfl
    constructor
    · intro hmark
      simp only [runWorkflow, synthesisPhase, hso, synthesize_report]
      rw [drugStep_triage]
      simp [safeStepState, applySynthesis, hmark]
    · intro hmark
      refine ⟨?_, ?_⟩
      · simp only [runWorkflow, synthesisPhase, hso, synthesize_report]
        rw [drugStep_triage]
        simp [safeStepState, applySynthesis, hmark]
        exact htr
      · simp only [runWorkflow, synthesisPhase, hso, synthesize_report]
        apply drugStep_final_ne
        simp [safeStepState, applySynthesis]
  · intro did pid stext img o hso
    simp only [runWorkflow, synthesisPhase, hso, synthesize_report]
    have hdr : ∀ st2 : DiagnosticState, st2.final_report = none →
        st2.triage_level = some "Undetermined" →
        (safeStepState "DrugChecker" st2
            (check_drug_interactions st2 o.drugCheck)).triage_level =
          some "Undetermined" ∧
        (safeStepState "DrugChecker" st2
            (check_drug_interactions st2 o.drugCheck)).final_report = none := by
      intro st2 h2 h3
      have hok : check_drug_interactions st2 o.drugCheck = .ok st2 := by
        simp [check_drug_interactions, parseConditions, h2]
      simp [safeStepState, hok, h2, h3]
    apply hdr <;> simp [safeStepState, applySynthesis]

/-- C2 witness: the amended theorem applied at the benign oracle, whose report
ends in "TRIAGE_LEVEL: Urgent". -/
theorem C2_amended_witness :
    (runWorkflow "dw2" 1 "s" none oracleBase).triage_level = some "Urgent" := by
  have h := (C2_amended.1 "dw2" 1 "s" none oracleBase
    "Report body\nTRIAGE_LEVEL: Urgent" rfl).1 (by decide)
  rw [h]
  rfl

/-! ### C6: the error field on repeated failures -/

/-- C6, counterexample.  The claim asserts the Step Wrapper sets `error` only
if not already set, so the first failing step's message is retained.  In a run
where the symptom analysis fails first ("boom") and the patient lookup fails
second, the returned record carries the second message, not the first. -/
theorem C6_counterexample :
    (runWorkflow "d6" 7 "s" none oracleTwoFailures).error_message =
      some "Error in step 'EHR_Fetcher': Patient with ID 7 not found or data malformed." ∧
    (runWorkflow "d6" 7 "s" none oracleTwoFailures).error_message ≠
      some "Error in step 'SymptomAnalyzer': boom" := by
  constructor
  · decide
  · decide

/-- C6, amended.  `_safe_step` assigns `error_message` unconditionally on
every failure, whatever the field held before, so after the run the field
carries the message of the most recent failing step; in particular with a
failing symptom analysis followed by a failing patient lookup, the Foundation
phase ends with the lookup's message. -/
theorem C6_amended :
    (∀ (α : Type) (stepName : String) (err0 : Option String) (msg : String) (d : α),
      (safeStep stepName err0 (.error msg) d).2 = some (stepErrorMessage stepName msg)) ∧
    (∀ (did : String) (pid : Int) (stext : String) (img : Option (List Nat)) (o : Oracle)
        (eA : String),
      o.analyze = .error eA → o.ehrLookup = none →
      (foundationPhase o (initState did pid stext img)).error_message =
        some (stepErrorMessage "EHR_Fetcher"
          ("Patient with ID " ++ toString pid ++ " not found or data malformed."))) := by
  constructor
  · intro α stepName err0 msg d
    rfl
  · intro did pid stext img o eA h1 h2
    simp [foundationPhase, h1, h2, fetch_ehr_data, initState]

/-- C6 witness: the amended theorem applied at the two-failure oracle. -/
theorem C6_amended_witness :
    (foundationPhase oracleTwoFailures (initState "d6w" 7 "s" none)).error_message =
      some (stepErrorMessage "EHR_Fetcher"
        ("Patient with ID " ++ toString (7 : Int) ++ " not found or data malformed.")) :=
  C6_amended.2 "d6w" 7 "s" none oracleTwoFailures "boom" rfl rfl

/-! ### C10: the name-based contained-failure default -/

/-- C10.  `_safe_step`'s contained-failure default is `[]` exactly when the
lowercased step name contains "search" and `{}` otherwise — evaluated here at
every step name the Scheduler uses — and consequently a failed symptom
extraction leaves `structured_symptoms` equal to the empty dict, and a failed
patient lookup leaves `patient_details` equal to the empty dict while the run
continues into the Evidence and Synthesis phases (the critique slot ends up
filled). -/
theorem C10_thm :
    (stepDefaultIsList "SymptomAnalyzer" = false ∧ stepDefaultIsList "EHR_Fetcher" = false ∧
     stepDefaultIsList "PubMedSearcher" = true ∧ stepDefaultIsList "OpenAlexSearcher" = true ∧
     stepDefaultIsList "CaseSearcher" = true ∧ stepDefaultIsList "ImagingAnalyzer" = false ∧
     stepDefaultIsList "CritiqueAgent" = false ∧
     stepDefaultIsList "ReportSynthesizer" = false ∧
     stepDefaultIsList "DrugChecker" = false) ∧
    (∀ (did : String) (pid : Int) (stext : String) (img : Option (List Nat)) (o : Oracle)
        (e : String),
      o.analyze = .error e →
      (runWorkflow did pid stext img o).structured_symptoms = some emptyStructuredSymptoms) ∧
    (∀ (did : String) (pid : Int) (stext : String) (img : Option (List Nat)) (o : Oracle),
      o.ehrLookup = none →
      (runWorkflow did pid stext img o).patient_details = some emptyPatientDetails ∧
      (runWorkflow did pid stext img o).critique_notes.isSome = true) := by
  refine ⟨by decide, ?_, ?_⟩
  · intro did pid stext img o e h
    simp only [runWorkflow]
    rw [synthesisPhase_structured, (evidencePhase_frame o _).2.2.2.1]
    simp [foundationPhase, h]
  · intro did pid stext img o h
    refine ⟨?_, ?_⟩
    · simp only [runWorkflow]
      rw [synthesisPhase_patient_details, (evidencePhase_frame o _).2.2.2.2.1]
      simp [foundationPhase, h, fetch_ehr_data]
    · simp only [runWorkflow]
      exact synthesisPhase_critique_isSome o _

/-- C10 witness: the name-based defaults observed on a run where both
Foundation steps fail. -/
theorem C10_witness :
    (runWorkflow "d10" 3 "s" none oracleTwoFailures).structured_symptoms =
      some emptyStructuredSymptoms ∧
    (runWorkflow "d10" 3 "s" none oracleTwoFailures).patient_details =
      some emptyPatientDetails ∧
    (runWorkflow "d10" 3 "s" none oracleTwoFailures).critique_notes.isSome = true :=
  ⟨C10_thm.2.1 "d10" 3 "s" none oracleTwoFailures "boom" rfl,
   (C10_thm.2.2 "d10" 3 "s" none oracleTwoFailures rfl).1,
   (C10_thm.2.2 "d10" 3 "s" none oracleTwoFailures rfl).2⟩

/-! ### C1: a not-found patient lookup does not stop the run -/

/-- C1, counterexample.  The claim asserts that when the patient lookup
reports not-found the run stops after the Foundation phase with every
Evidence- and Synthesis-phase field still at its initial value.  On a run
with a not-found lookup and otherwise healthy collaborators, the returned
record has populated evidence lists, a critique, a report and a triage
level. -/
theorem C1_counterexample :
    (runWorkflow "d1" 5 "sym" none oracleEhrMissing).error_message.isSome = true ∧
    (runWorkflow "d1" 5 "sym" none oracleEhrMissing).literature_evidence ≠ [] ∧
    (runWorkflow "d1" 5 "sym" none oracleEhrMissing).case_database_evidence ≠ [] ∧
    (runWorkflow "d1" 5 "sym" none oracleEhrMissing).critique_notes.isSome = true ∧
    (runWorkflow "d1" 5 "sym" none oracleEhrMissing).final_report =
      some "Report body\nTRIAGE_LEVEL: Urgent" ∧
    (runWorkflow "d1" 5 "sym" none oracleEhrMissing).triage_level = some "Urgent" := by
  refine ⟨rfl, by decide, by decide, rfl, rfl, rfl⟩

/-- C1, amended.  When the patient lookup reports not-found, the step raises,
the Step Wrapper records the error and swallows it (nothing is foundational in
the source): the run continues with `patient_details` set to the empty dict,
`error_message` set, and the Evidence and Synthesis phases still executing
(the critique slot of the returned record is filled). -/
theorem C1_amended :
    ∀ (did : String) (pid : Int) (stext : String) (img : Option (List Nat)) (o : Oracle),
      o.ehrLookup = none →
      (runWorkflow did pid stext img o).patient_details = some emptyPatientDetails ∧
      (runWorkflow did pid stext img o).error_message.isSome = true ∧
      (runWorkflow did pid stext img o).critique_notes.isSome = true := by
  intro did pid stext img o h
  refine ⟨?_, ?_, ?_⟩
  · simp only [runWorkflow]
    rw [synthesisPhase_patient_details, (evidencePhase_frame o _).2.2.2.2.1]
    simp [foundationPhase, h, fetch_ehr_data]
  · simp only [runWorkflow]
    apply synthesisPhase_error_mono
    apply evidencePhase_error_mono
    simp [foundationPhase, h, fetch_ehr_data]
  · simp only [runWorkflow]
    exact synthesisPhase_critique_isSome o _

/-- C1 witness: the amended theorem applied at the not-found oracle. -/
theorem C1_amended_witness :
    (runWorkflow "d1w" 5 "sym" none oracleEhrMissing).patient_details =
      some emptyPatientDetails ∧
    (runWorkflow "d1w" 5 "sym" none oracleEhrMissing).error_message.isSome = true ∧
    (runWorkflow "d1w" 5 "sym" none oracleEhrMissing).critique_notes.isSome = true :=
  C1_amended "d1w" 5 "sym" none oracleEhrMissing rfl

/-! ### C3: fan-out isolation -/

/-- C3, counterexample.  The claim asserts that when the PubMed branch throws
while the other branches succeed, `literature_evidence` equals the empty list
and "the other two output fields" are populated.  The code has only two
Evidence output fields and merges PubMed and OpenAlex into
`literature_evidence`, so with PubMed down and OpenAlex succeeding the field
holds the OpenAlex results and is not empty. -/
theorem C3_counterexample :
    (runWorkflow "d3" 1 "s" none oraclePubmedDown).literature_evidence =
      [⟨"OA:1", "OA text", 1⟩] ∧
    (runWorkflow "d3" 1 "s" none oraclePubmedDown).literature_evidence ≠ [] ∧
    (runWorkflow "d3" 1 "s" none oraclePubmedDown).case_database_evidence ≠ [] ∧
    (runWorkflow "d3" 1 "s" none oraclePubmedDown).final_report.isSome = true := by
  refine ⟨by decide, by decide, by decide, rfl⟩

/-- C3, amended.  When the PubMed branch throws and the OpenAlex and case
branches succeed, the surviving branches' results are still merged: the failed
branch contributes `[]` to `literature_evidence` (which therefore equals the
OpenAlex list — PubMed and OpenAlex share that field; there is no separate
broad-search field), `case_database_evidence` holds the case results, the
Synthesis phase still runs, and the failure is recorded in the error field. -/
theorem C3_amended :
    ∀ (did : String) (pid : Int) (stext : String) (img : Option (List Nat)) (o : Oracle)
      (ep : String) (la lc : List Evidence),
      search_pubmed (foundationPhase o (initState did pid stext img))
        o.pubmedSearch o.pubmedFetch = .error ep →
      search_openalex (foundationPhase o (initState did pid stext img))
        o.openalexSearch = .ok la →
      search_case_database (foundationPhase o (initState did pid stext img))
        o.chromaAvailable o.caseQuery = .ok lc →
      (runWorkflow did pid stext img o).literature_evidence = la ∧
      (runWorkflow did pid stext img o).case_database_evidence = lc ∧
      (runWorkflow did pid stext img o).critique_notes.isSome = true ∧
      (runWorkflow did pid stext img o).error_message.isSome = true := by
  intro did pid stext img o ep la lc h1 h2 h3
  have hev :
      (evidencePhase o (foundationPhase o (initState did pid stext img))).literature_evidence
        = la ∧
      (evidencePhase o (foundationPhase o
        (initState did pid stext img))).case_database_evidence = lc ∧
      (evidencePhase o (foundationPhase o
        (initState did pid stext img))).error_message.isSome = true := by
    simp only [evidencePhase, h1, h2, h3, safeStep_error, safeStep_ok]
    split
    · exact ⟨by simp, rfl, safeStep_snd_isSome _ _ _ _ rfl⟩
    · exact ⟨by simp, rfl, rfl⟩
  refine ⟨?_, ?_, ?_, ?_⟩
  · simp only [runWorkflow]
    rw [synthesisPhase_literature]
    exact hev.1
  · simp only [runWorkflow]
    rw [synthesisPhase_case]
    exact hev.2.1
  · simp only [runWorkflow]
    exact synthesisPhase_critique_isSome o _
  · simp only [runWorkflow]
    exact synthesisPhase_error_mono o _ hev.2.2

/-- C3 witness: the amended theorem applied at the PubMed-down oracle. -/
theorem C3_amended_witness :
    (runWorkflow "d3w" 1 "s" none oraclePubmedDown).literature_evidence =
      [⟨"OA:1", "OA text", 1⟩] ∧
    (runWorkflow "d3w" 1 "s" none oraclePubmedDown).case_database_evidence =
      [⟨"CaseDB:c1", "Case Title: CT\nSummary: case doc", 1 - 0⟩] ∧
    (runWorkflow "d3w" 1 "s" none oraclePubmedDown).critique_notes.isSome = true ∧
    (runWorkflow "d3w" 1 "s" none oraclePubmedDown).error_message.isSome = true :=
  C3_amended "d3w" 1 "s" none oraclePubmedDown "PubMed API failure"
    [⟨"OA:1", "OA text", 1⟩] [⟨"CaseDB:c1", "Case Title: CT\nSummary: case doc", 1 - 0⟩]
    rfl rfl rfl

/-! ### C4: Evidence fields are lists, never absent -/

/-- C4.  Each Evidence-phase output field is a list — by the state's shape it
is never absent — and even when every Evidence service call throws, the run
completes the phase with both fields equal to the empty list and the Synthesis
phase still runs. -/
theorem C4_thm :
    ∀ (did : String) (pid : Int) (stext : String) (img : Option (List Nat)) (o : Oracle)
      (eP eO eC : String),
      (∀ q, o.pubmedSearch q = .error eP) →
      (∀ q, o.openalexSearch q = .error eO) →
      (∀ q, o.caseQuery q = .error eC) →
      (runWorkflow did pid stext img o).literature_evidence = [] ∧
      (runWorkflow did pid stext img o).case_database_evidence = [] ∧
      (runWorkflow did pid stext img o).critique_notes.isSome = true := by
  intro did pid stext img o eP eO eC hP hO hC
  obtain ⟨ss, hss⟩ : ∃ ss,
      (foundationPhase o (initState did pid stext img)).structured_symptoms = some ss :=
    ⟨_, rfl⟩
  have h1 := search_pubmed_allfail _ ss hss o.pubmedSearch eP hP o.pubmedFetch
  have h2 := search_openalex_allfail _ ss hss o.openalexSearch eO hO
  have h3 := search_case_allfail _ ss hss o.chromaAvailable o.caseQuery eC hC
  have hev :
      (evidencePhase o (foundationPhase o (initState did pid stext img))).literature_evidence
        = [] ∧
      (evidencePhase o (foundationPhase o
        (initState did pid stext img))).case_database_evidence = [] := by
    rcases h1 with h1 | h1 <;>
      · simp only [evidencePhase, h1, h2, h3, safeStep_ok, safeStep_error]
        split <;> exact ⟨by simp, rfl⟩
  refine ⟨?_, ?_, ?_⟩
  · simp only [runWorkflow]
    rw [synthesisPhase_literature]
    exact hev.1
  · simp only [runWorkflow]
    rw [synthesisPhase_case]
    exact hev.2
  · simp only [runWorkflow]
    exact synthesisPhase_critique_isSome o _

/-- C4 witness: the theorem applied at the oracle on which all three search
services throw. -/
theorem C4_witness :
    (runWorkflow "d4" 1 "s" none oracleAllSearchesDown).literature_evidence = [] ∧
    (runWorkflow "d4" 1 "s" none oracleAllSearchesDown).case_database_evidence = [] ∧
    (runWorkflow "d4" 1 "s" none oracleAllSearchesDown).critique_notes.isSome = true :=
  C4_thm "d4" 1 "s" none oracleAllSearchesDown "p" "o" "c"
    (fun _ => rfl) (fun _ => rfl) (fun _ => rfl)

/-! ### C7: the top-level run never throws and always identifies itself -/

/-- C7.  `run` is total in this model (every step is wrapped, so the body of
the source's outer `try` never raises): for every oracle the returned record
carries the identifying inputs unchanged, and when a step fails — symptom
analysis, patient lookup, the throwing PubMed branch, critique or report
generation — the error description is present in the error field. -/
theorem C7_thm :
    ∀ (did : String) (pid : Int) (stext : String) (img : Option (List Nat)) (o : Oracle),
      (runWorkflow did pid stext img o).diagnosis_id = did ∧
      (runWorkflow did pid stext img o).patient_id = pid ∧
      (runWorkflow did pid stext img o).symptoms_text = stext ∧
      (((∃ e, o.analyze = .error e) ∨ o.ehrLookup = none ∨
        (∃ e, search_pubmed (foundationPhase o (initState did pid stext img))
          o.pubmedSearch o.pubmedFetch = .error e) ∨
        (∃ e, o.critique = .error e) ∨ (∃ e, o.synthesize = .error e)) →
        (runWorkflow did pid stext img o).error_message.isSome = true) := by
  intro did pid stext img o
  obtain ⟨hd, hp, hs⟩ := runWorkflow_ids did pid stext img o
  refine ⟨hd, hp, hs, ?_⟩
  intro hfail
  simp only [runWorkflow]
  rcases hfail with ⟨e, he⟩ | he | ⟨e, he⟩ | ⟨e, he⟩ | ⟨e, he⟩
  · exact synthesisPhase_error_mono o _ (evidencePhase_error_mono o _
      (foundationPhase_error_of_analyze o _ e he))
  · exact synthesisPhase_error_mono o _ (evidencePhase_error_mono o _
      (foundationPhase_error_of_ehr o _ he))
  · exact synthesisPhase_error_mono o _ (evidencePhase_error_of_pubmed o _ e he)
  · exact synthesisPhase_error_of_critique o _ e he
  · exact synthesisPhase_error_of_synth o _ e he

/-- C7 witness: the theorem applied at a run with a fatal (not-found) lookup:
the identifying fields and the error description are present. -/
theorem C7_witness :
    (runWorkflow "d7" 9 "stext" none oracleEhrMissing).diagnosis_id = "d7" ∧
    (runWorkflow "d7" 9 "stext" none oracleEhrMissing).patient_id = 9 ∧
    (runWorkflow "d7" 9 "stext" none oracleEhrMissing).symptoms_text = "stext" ∧
    (runWorkflow "d7" 9 "stext" none oracleEhrMissing).error_message.isSome = true := by
  have h := C7_thm "d7" 9 "stext" none oracleEhrMissing
  exact ⟨h.1, h.2.1, h.2.2.1, h.2.2.2 (Or.inr (Or.inl rfl))⟩

/-! ### C8: the Tier-2 fallback and the empty-query skip -/

/-- C8.  When Tier 1 finds no match, the query is composed as
"{age-bucket} differential diagnosis {names}" from the non-empty names of the
first two symptoms — at most the first two symptom names in their given order
(they form a prefix of the name sequence of length at most 2) — with bucket
"pediatric" exactly when the patient age is under 18; when no symptom names
exist at all the query is the empty string, and `_search_pubmed` treats an
empty query as "skip", returning the empty result instead of erroring. -/
theorem C8_thm :
    ∀ (st : DiagnosticState) (ss : StructuredSymptoms),
      st.structured_symptoms = some ss →
      symptomLoop "" (ss.symptoms.getD []) = "" →
      (tier2Names (ss.symptoms.getD []) ≠ [] →
        get_smart_search_query st = .ok
          ((if ageOf st.patient_details < 18 then "pediatric" else "adult") ++
            " differential diagnosis " ++
            String.intercalate " " (tier2Names (ss.symptoms.getD []))) ∧
        (tier2Names (ss.symptoms.getD [])).length ≤ 2 ∧
        ∃ t2, (ss.symptoms.getD []).filterMap truthyName =
          tier2Names (ss.symptoms.getD []) ++ t2) ∧
      ((ss.symptoms.getD []).filterMap truthyName = [] →
        get_smart_search_query st = .ok "" ∧
        ∀ osearch ofetch, search_pubmed st osearch ofetch = .ok []) := by
  intro st ss h hq
  have hprefix : ∃ t2, (ss.symptoms.getD []).filterMap truthyName =
      tier2Names (ss.symptoms.getD []) ++ t2 := by
    refine ⟨((ss.symptoms.getD []).drop 2).filterMap truthyName, ?_⟩
    conv_lhs => rw [← List.take_append_drop 2 (ss.symptoms.getD [])]
    rw [List.filterMap_append]
    rfl
  constructor
  · intro hn
    have hne : ss.symptoms.getD [] ≠ [] := by
      intro he
      apply hn
      simp [tier2Names, he]
    refine ⟨?_, ?_, hprefix⟩
    · simp only [get_smart_search_query, h]
      rw [if_neg hne]
      simp only [hq, if_true]
      rw [if_neg hn]
    · calc (tier2Names (ss.symptoms.getD [])).length
          ≤ ((ss.symptoms.getD []).take 2).length := List.length_filterMap_le _ _
        _ ≤ 2 := by rw [List.length_take]; exact min_le_left _ _
  · intro hfm
    have hnames : tier2Names (ss.symptoms.getD []) = [] := by
      obtain ⟨t2, ht⟩ := hprefix
      rw [hfm] at ht
      exact (List.append_eq_nil.mp ht.symm).1
    have hq0 : get_smart_search_query st = .ok "" := by
      simp only [get_smart_search_query, h]
      by_cases hse : ss.symptoms.getD [] = []
      · rw [if_pos hse]
      · rw [if_neg hse]
        simp only [hq, if_true]
        rw [if_pos hnames]
    exact ⟨hq0, fun osearch ofetch => by simp [search_pubmed, hq0]⟩

/-- C8 witness: the theorem applied at the spec's Tier-2 example (cough and
fever, age 6) yields the pediatric generic phrase. -/
theorem C8_witness :
    get_smart_search_query coughFeverState =
      .ok "pediatric differential diagnosis cough fever" := by
  have h := (C8_thm coughFeverState ⟨some [⟨some "cough", []⟩, ⟨some "fever", []⟩]⟩
    rfl rfl).1 (by decide)
  exact h.1

end Aura
